import Mathlib

/-!
Verification of `holoviews/core/pprint.py`.

The file embeds the two components of the module:

* `PrettyPrinter` — the recursive ASCII tree printer (`pprint`, `recurse`,
  `node_info`, `ndmapping_info`, `adjointlayout_info`, `element_info`,
  `serialize`, `shift`, `padding`);
* `ParamFilter` / `InfoPrinter` — the parameter-report path (`regexp_filter`,
  the filtering proxy construction, and the non-visualization branch of
  `InfoPrinter.info`).

Python exceptions (AttributeError on a missing attribute, IndexError on an
out-of-range index) are modelled by `Option`: `none` means the corresponding
Python call raises.
-/

namespace HoloViews

/-- Modelled from the spec: the node data model of §3 (the node classes live in
other holoviews modules, outside this file's source).  A node is one of:
a GroupNode (`group`, has a `children` attribute and string-keyed children in
insertion order, keys already dot-joined), a CompositeNode (`composite`, has a
`main` attribute and ordered `data` values), an IndexableMapping (`ndmapping`,
`_deep_indexable = True`, named key dimensions and ordered `data` values), or a
LeafElement (`leaf`, `_deep_indexable = False`, key and value dimension names).
`pynone` is Python's `None`; `foreign` is an object that carries dimension
lists but does not define the `_deep_indexable` attribute at all, so that
`getattr(x, '_deep_indexable')` raises on it while
`getattr(x, '_deep_indexable', False)` returns `False`. -/
inductive Node where
  | pynone : Node
  | group (tyname : String) (children : List (String × Node)) : Node
  | composite (tyname : String) (data : List Node) : Node
  | ndmapping (tyname : String) (kdims : List String) (data : List Node) : Node
  | leaf (tyname : String) (kdims vdims : List String) : Node
  | foreign (tyname : String) (kdims vdims : List String) : Node

namespace Node

mutual

/-- Structural size of a node, used as the termination measure of the
mutually recursive printer. -/
def size : Node → Nat
  | .pynone => 1
  | .leaf _ _ _ => 1
  | .foreign _ _ _ => 1
  | .group _ cs => 1 + sizeChildren cs
  | .composite _ ds => 1 + sizeList ds
  | .ndmapping _ _ ds => 1 + sizeList ds

/-- Total size of a `children` association list. -/
def sizeChildren : List (String × Node) → Nat
  | [] => 0
  | (_, c) :: rest => size c + sizeChildren rest

/-- Total size of a list of nodes. -/
def sizeList : List Node → Nat
  | [] => 0
  | c :: rest => size c + sizeList rest

end

theorem size_pos : ∀ n : Node, 1 ≤ n.size := by
  intro n
  cases n <;> simp [size]

theorem sizeList_getLast? {ds : List Node} {c : Node}
    (h : ds.getLast? = some c) : c.size ≤ sizeList ds := by
  induction ds with
  | nil => simp at h
  | cons a rest ih =>
    cases hr : rest with
    | nil =>
      subst hr
      simp [List.getLast?] at h
      subst h
      simp [sizeList]
    | cons b tail =>
      rw [hr] at h ih
      rw [List.getLast?_cons_cons] at h
      have hle := ih h
      simp [sizeList] at hle ⊢
      omega

theorem sizeList_map_snd (cs : List (String × Node)) :
    sizeList (cs.map Prod.snd) = sizeChildren cs := by
  induction cs with
  | nil => rfl
  | cons a rest ih => cases a; simp [sizeList, sizeChildren, ih]

/-- `hasattr(node, 'children')`: true exactly for the AttrTree-like group
nodes. -/
def hasChildren : Node → Bool
  | .group _ _ => true
  | _ => false

/-- `hasattr(node, 'main')`: true exactly for the AdjointLayout-like composite
nodes. -/
def hasMain : Node → Bool
  | .composite _ _ => true
  | _ => false

/-- `getattr(node, '_deep_indexable')` with no default: `none` models the
AttributeError raised when the attribute is not defined (`None` and foreign
objects). -/
def deepIndexable? : Node → Option Bool
  | .pynone => none
  | .foreign _ _ _ => none
  | .group _ _ => some true
  | .composite _ _ => some true
  | .ndmapping _ _ _ => some true
  | .leaf _ _ _ => some false

/-- `getattr(node, '_deep_indexable', False)`: the defaulted lookup used by
the top-level dispatch. -/
def deepIndexableOrFalse (n : Node) : Bool :=
  (deepIndexable? n).getD false

/-- True exactly on Python's `None` (the `node is None` test). -/
def isPyNone : Node → Bool
  | .pynone => true
  | _ => false

/-- `node.kdims` as a list of dimension names; `none` models the
AttributeError on `None`. -/
def kdims? : Node → Option (List String)
  | .pynone => none
  | .group _ _ => some []
  | .composite _ _ => some []
  | .ndmapping _ kd _ => some kd
  | .leaf _ kd _ => some kd
  | .foreign _ kd _ => some kd

/-- `node.vdims` as a list of dimension names; `none` models the
AttributeError on `None`. -/
def vdims? : Node → Option (List String)
  | .pynone => none
  | .group _ _ => some []
  | .composite _ _ => some []
  | .ndmapping _ _ _ => some []
  | .leaf _ _ vd => some vd
  | .foreign _ _ vd => some vd

/-- `list(node.data.values())` for the nodes that expose a `data` mapping;
`none` models the AttributeError for nodes without one. -/
def data? : Node → Option (List Node)
  | .group _ cs => some (cs.map Prod.snd)
  | .composite _ ds => some ds
  | .ndmapping _ _ ds => some ds
  | _ => none

theorem data?_size {n : Node} {ds : List Node} (h : n.data? = some ds) :
    sizeList ds < n.size := by
  cases n <;> simp [data?] at h <;> subst h <;>
    simp [size, sizeList_map_snd]

/-- The `children` association list seen by `recurse`: the dot-joined keys and
their nodes for a group node (`node.keys()` / `node.get`), empty for every
other node, matching the `if hasattr(node, 'children') else []` guard. -/
def childrenOf : Node → List (String × Node)
  | .group _ cs => cs
  | _ => []

theorem childrenOf_size (n : Node) : sizeChildren (childrenOf n) < n.size := by
  cases n <;> simp [childrenOf, sizeChildren, size]

/-- `type(node).__name__`. -/
def tyname? : Node → String
  | .pynone => "NoneType"
  | .group t _ => t
  | .composite t _ => t
  | .ndmapping t _ _ => t
  | .leaf t _ _ => t
  | .foreign t _ _ => t

end Node

namespace PrettyPrinter

/-- `PrettyPrinter.tab`. -/
def tab : String := "   "

/-- `level * cls.tab`: the tab string repeated `level` times. -/
def tabs : Nat → String
  | 0 => ""
  | n + 1 => tab ++ tabs n

/-- `PrettyPrinter.serialize`: flatten `(level, line)` pairs into the final
string. -/
def serialize (lines : List (Nat × String)) : String :=
  String.intercalate "\n" (lines.map (fun p => tabs p.1 ++ p.2))

/-- `PrettyPrinter.shift`: add a constant to every line's level. -/
def shift (lines : List (Nat × String)) (s : Nat) : List (Nat × String) :=
  lines.map (fun p => (p.1 + s, p.2))

/-- `PrettyPrinter.padding`: the longest length when more than one item is
given, else the single item's length; `none` models the IndexError raised on
an empty list. -/
def padding : List String → Option Nat
  | [] => none
  | [x] => some x.length
  | x :: y :: rest => some ((y :: rest).foldl (fun m s => max m s.length) x.length)

/-- Python `str.ljust`: pad on the right with spaces to the given width. -/
def ljust (s : String) (w : Nat) : String :=
  s ++ String.mk (List.replicate (w - s.length) ' ')

/-- `PrettyPrinter.component_type`: the `:{type}` tag, empty for `None`. -/
def component_type (node : Node) : String :=
  match node with
  | .pynone => ""
  | n => ":" ++ n.tyname?

/-- `PrettyPrinter.element_info`: single summary line for an element.  The
sibling padding is computed exactly as in the source (`info.ljust(padding)`)
but its result is discarded there, so it is bound and never used here. -/
def element_info (node : Node) (siblings : List Node) (level : Nat)
    (value_dims : Bool) : Option (Nat × List (Nat × String)) :=
  let info := component_type node
  let _pad : Option Nat :=
    if siblings.isEmpty then none
    else padding (siblings.map component_type)
  match node.kdims? with
  | none => none
  | some kd =>
    let info := if 1 ≤ kd.length then
        info ++ tab ++ "[" ++ String.intercalate "," kd ++ "]"
      else info
    if value_dims then
      match node.vdims? with
      | none => none
      | some vd =>
        let info := if 1 ≤ vd.length then
            info ++ tab ++ "(" ++ String.intercalate "," vd ++ ")"
          else info
        some (level, [(level, info)])
    else
      some (level, [(level, info)])

mutual

/-- `PrettyPrinter.recurse`: walk the tree, emitting `(level, line)` pairs.
For a node with a `children` attribute the child paths (`'.'.join(k)` over the
keys, already joined in the model) and child nodes are collected and each
child is visited one level below the level returned by `node_info`. -/
def recurse (node : Node) (attrpath : Option String) (attrpaths : List String)
    (siblings : List Node) (level : Nat) (value_dims : Bool) :
    Option (List (Nat × String)) :=
  match node_info node attrpath attrpaths siblings level value_dims with
  | none => none
  | some (lvl, lines) =>
    match recurseChildren (Node.childrenOf node)
        ((Node.childrenOf node).map Prod.fst)
        ((Node.childrenOf node).map Prod.snd) (lvl + 1) value_dims with
    | none => none
    | some rest => some (lines ++ rest)
termination_by 8 * node.size + 3
decreasing_by
  · omega
  · have hc := Node.childrenOf_size node
    omega

/-- The `for index, attrpath in enumerate(attrpaths)` loop body of
`PrettyPrinter.recurse`, concatenating the recursive results in order. -/
def recurseChildren (children : List (String × Node)) (attrpaths : List String)
    (siblings : List Node) (level : Nat) (value_dims : Bool) :
    Option (List (Nat × String)) :=
  match children with
  | [] => some []
  | (p, c) :: rest =>
    match recurse c (some p) attrpaths siblings level value_dims with
    | none => none
    | some ls =>
      match recurseChildren rest attrpaths siblings level value_dims with
      | none => none
      | some rs => some (ls ++ rs)
termination_by 8 * Node.sizeChildren children + 4
decreasing_by
  · simp [Node.sizeChildren]
    omega
  · have hc := Node.size_pos c
    simp [Node.sizeChildren]
    omega

/-- `PrettyPrinter.node_info`: dispatch on the node's capabilities, then, when
an attribute path is present, rewrite the first produced line to carry the
`'.' + attrpath.ljust(padding) + ' '` prefix.  `none` models the IndexError
on `lines[0]` for an empty result and the error inside `padding` for an empty
`attrpaths`. -/
def node_info (node : Node) (attrpath : Option String) (attrpaths : List String)
    (siblings : List Node) (level : Nat) (value_dims : Bool) :
    Option (Nat × List (Nat × String)) :=
  match node_dispatch node siblings level value_dims with
  | none => none
  | some (lvl, lines) =>
    match attrpath with
    | none => some (lvl, lines)
    | some ap =>
      match padding attrpaths with
      | none => none
      | some pad =>
        match lines with
        | [] => none
        | (fst_lvl, fst_line) :: rest =>
          some (lvl, (fst_lvl, "." ++ ljust ap pad ++ " " ++ fst_line) :: rest)
termination_by 8 * node.size + 2
decreasing_by
  · omega

/-- The `if hasattr ... elif hasattr ... elif getattr ... else` chain at the
top of `PrettyPrinter.node_info`, in source order. -/
def node_dispatch (node : Node) (siblings : List Node) (level : Nat)
    (value_dims : Bool) : Option (Nat × List (Nat × String)) :=
  if node.hasChildren then some (level, [(level, component_type node)])
  else if node.hasMain then adjointlayout_info node siblings level value_dims
  else if node.deepIndexableOrFalse then
    ndmapping_info node siblings level value_dims
  else element_info node siblings level value_dims
termination_by 8 * node.size + 1
decreasing_by
  · omega
  · omega

/-- `PrettyPrinter.adjointlayout_info`: header line, then every component of
`node.data.values()` visited by `recurse` (with its Python default arguments,
so `value_dims` is reset to `True`) and shifted one level deeper. -/
def adjointlayout_info (node : Node) (siblings : List Node) (level : Nat)
    (value_dims : Bool) : Option (Nat × List (Nat × String)) :=
  match h : node.data? with
  | none => none
  | some ds =>
    match recurseList ds level with
    | none => none
    | some al => some (level, (level, component_type node) :: shift al 1)
termination_by 8 * node.size
decreasing_by
  · have hs := Node.data?_size h
    omega

/-- The `for component in list(node.data.values())` loop of
`PrettyPrinter.adjointlayout_info`. -/
def recurseList (ds : List Node) (level : Nat) : Option (List (Nat × String)) :=
  match ds with
  | [] => some []
  | c :: rest =>
    match recurse c none [] [] level true with
    | none => none
    | some ls =>
      match recurseList rest level with
      | none => none
      | some rs => some (ls ++ rs)
termination_by 8 * Node.sizeList ds + 4
decreasing_by
  · simp [Node.sizeList]
    omega
  · have hc := Node.size_pos c
    simp [Node.sizeList]
    omega

/-- `PrettyPrinter.ndmapping_info`: header line with the bracketed key
dimensions; an empty mapping stops there.  Otherwise the last entry of
`node.data.values()` is inspected: a `children`-bearing node is revisited by
`recurse` (Python default arguments, so `value_dims` is reset to `True`), a
non-`None` node is probed with the unguarded `getattr(last,
'_deep_indexable')` (`none` when that raises), a deep-indexable node recurses
into `ndmapping_info` itself, and anything else goes to `element_info`; in
every branch the additional lines are shifted one level deeper. -/
def ndmapping_info (node : Node) (siblings : List Node) (level : Nat)
    (value_dims : Bool) : Option (Nat × List (Nat × String)) :=
  match node.kdims? with
  | none => none
  | some kd =>
    let key_dim_info := "[" ++ String.intercalate "," kd ++ "]"
    let first_line := component_type node ++ tab ++ key_dim_info
    match hd : node.data? with
    | none => none
    | some ds =>
      match hl : ds.getLast? with
      | none => some (level, [(level, first_line)])
      | some last =>
        if last.hasChildren then
          match recurse last none [] [] level true with
          | none => none
          | some al => some (level, (level, first_line) :: shift al 1)
        else if last.isPyNone then
          match element_info last siblings level value_dims with
          | none => none
          | some r => some (level, (level, first_line) :: shift r.2 1)
        else
          match last.deepIndexable? with
          | none => none
          | some true =>
            match ndmapping_info last [] level value_dims with
            | none => none
            | some r => some (r.1, (level, first_line) :: shift r.2 1)
          | some false =>
            match element_info last siblings level value_dims with
            | none => none
            | some r => some (level, (level, first_line) :: shift r.2 1)
termination_by 8 * node.size
decreasing_by
  · have h1 := Node.data?_size hd
    have h2 := Node.sizeList_getLast? hl
    omega
  · have h1 := Node.data?_size hd
    have h2 := Node.sizeList_getLast? hl
    omega

end

/-- `PrettyPrinter.pprint`: serialize the full recursion from the root with
the Python default arguments. -/
def pprint (node : Node) : Option String :=
  (recurse node none [] [] 0 true).map serialize

end PrettyPrinter

/-- Modelled from the spec: an external parameter descriptor (declared by the
`param` library, outside this repository): its documentation string and its
constant/read-only flag. -/
structure PDescr where
  doc : String
  constant : Bool
deriving DecidableEq

/-- Modelled from the spec: a parameterized object or class as this module
consumes it — a display name, the declared parameters in order
(`obj.params()`), and, for instances, the current parameter values
(`obj.get_param_values()`). -/
structure PObj where
  name : String
  params : List (String × PDescr)
  values : List (String × String)
deriving DecidableEq

namespace ParamFilter

/-- Modelled from the spec: Python's `re.search` (standard library, external
to this repository) restricted to patterns without regex metacharacters, where
it is a case-sensitive substring search.  `startsWithChars pat s` is the
anchored match of the pattern at the front of `s`. -/
def startsWithChars : List Char → List Char → Bool
  | [], _ => true
  | _ :: _, [] => false
  | p :: ps, c :: cs => if p = c then startsWithChars ps cs else false

/-- Try the anchored match at every position of the subject. -/
def searchChars (pat : List Char) : List Char → Bool
  | [] => startsWithChars pat []
  | c :: cs => startsWithChars pat (c :: cs) || searchChars pat cs

/-- `re.search(pattern, s) is not None` for a literal pattern. -/
def re_search (pattern s : String) : Bool :=
  searchChars pattern.toList s.toList

/-- `re.search` with `re.IGNORECASE` for a literal pattern: substring search
after lowercasing both sides.  This is the spec's notion of case-insensitive
matching, used to compare against the case-sensitive filter. -/
def re_search_ci (pattern s : String) : Bool :=
  searchChars (pattern.toList.map Char.toLower) (s.toList.map Char.toLower)

/-- `ParamFilter.regexp_filter`: the predicate matches when the pattern is
found in the parameter's name, else when it is found in its doc string. -/
def regexp_filter (pattern : String) (name : String) (p : PDescr) : Bool :=
  if re_search pattern name then true
  else if re_search pattern p.doc then true
  else false

/-- `ParamFilter.__call__`: with no filter return the object unchanged;
otherwise build the proxy holding exactly the parameters the filter accepts,
copying over the current values of the retained non-constant parameters. -/
def call (obj : PObj) (filter_fn : Option (String → PDescr → Bool)) : PObj :=
  match filter_fn with
  | none => obj
  | some f =>
    let fparams := obj.params.filter (fun kv => f kv.1 kv.2)
    { name := obj.name
      params := fparams
      values := obj.values.filter (fun kv =>
        match fparams.lookup kv.1 with
        | some d => !d.constant
        | none => false) }

end ParamFilter

namespace InfoPrinter

/-- Single-quote character, as produced around strings by Python `%r`. -/
def quote1 : String := String.singleton (Char.ofNat 39)

/-- `InfoPrinter.highlight`: a `None` pattern returns the string unchanged;
otherwise every case-insensitive occurrence of the pattern is wrapped in the
ANSI highlight codes by `re.sub` — the substitution (standard library) is the
collaborator `sub`. -/
def highlight (sub : String → String → String) (pattern : Option String)
    (s : String) : String :=
  match pattern with
  | none => s
  | some p => sub p s

/-- The `visualization is False or plot_class is None` branch of
`InfoPrinter.info`: when a pattern is supplied, reduce the object with
`ParamFilter` and the regexp filter and short-circuit with the
"No ... parameters found matching pattern ..." message when at most one
parameter survives; otherwise run the external `ParamPager` (`pager`) on the
possibly filtered object, strip ANSI codes (`strip`, the external
`ansi_escape.sub('', ·)`) unless `ansi`, and highlight. -/
def info_noviz (obj : PObj) (ansi : Bool) (pattern : Option String)
    (pager : PObj → String) (strip : String → String)
    (sub : String → String → String) : String :=
  match pattern with
  | some pat =>
    let objF := ParamFilter.call obj (some (ParamFilter.regexp_filter pat))
    if objF.params.length ≤ 1 then
      "No " ++ quote1 ++ obj.name ++ quote1 ++
        " parameters found matching pattern " ++ quote1 ++ pat ++ quote1
    else
      let i := pager objF
      let i := if ansi = false then strip i else i
      highlight sub (some pat) i
  | none =>
    let i := pager obj
    let i := if ansi = false then strip i else i
    highlight sub none i

/-- `InfoPrinter.info` with the external collaborators abstracted:
`plot_class` is the result of the rendering-backend registry lookup
(`cls.store.registry[backend].get(...)`) and `viz_report` stands for the
multi-section report assembled on the visualization branch, which depends
only on the registry, traversal and pager collaborators. -/
def info (obj : PObj) (ansi : Bool) (plot_class : Option Unit)
    (visualization : Bool) (pattern : Option String)
    (pager : PObj → String) (strip : String → String)
    (sub : String → String → String) (viz_report : String) : String :=
  if visualization = false ∨ plot_class = none then
    info_noviz obj ansi pattern pager strip sub
  else viz_report

/-- `InfoPrinter.get_parameter_info`, `show_values = True` path, with the
external pager abstracted: when a pattern is supplied the object is reduced by
`ParamFilter` with `regexp_filter pattern`, and `None` is returned when at
most one parameter survives the filter. -/
def get_parameter_info (obj : PObj) (ansi : Bool) (pattern : Option String)
    (pager : PObj → String) (strip : String → String)
    (sub : String → String → String) : Option String :=
  match pattern with
  | some pat =>
    let objF := ParamFilter.call obj (some (ParamFilter.regexp_filter pat))
    if objF.params.length ≤ 1 then none
    else
      let i := pager objF
      let i := if ansi = false then strip i else i
      some (highlight sub pattern i)
  | none =>
    let i := pager obj
    let i := if ansi = false then strip i else i
    some (highlight sub pattern i)

end InfoPrinter

namespace PrettyPrinter

/-- Unfolding lemma: serializing one level-0 line is that line. -/
theorem serialize_single0 (s : String) : serialize [(0, s)] = s := rfl

/-- The header line `ndmapping_info` builds for a mapping node. -/
def mappingHeader (ty : String) (kd : List String) : String :=
  ":" ++ ty ++ tab ++ "[" ++ String.intercalate "," kd ++ "]"

/-- Unfolding lemma: `node_dispatch` sends a mapping node to
`ndmapping_info`. -/
theorem node_dispatch_ndmapping (ty : String) (kd : List String) (ds sib : List Node)
    (l : Nat) (v : Bool) :
    node_dispatch (Node.ndmapping ty kd ds) sib l v =
      ndmapping_info (Node.ndmapping ty kd ds) sib l v := by
  rw [node_dispatch.eq_def]
  simp [Node.hasChildren, Node.hasMain, Node.deepIndexableOrFalse, Node.deepIndexable?]

/-- Unfolding lemma: `node_dispatch` sends a leaf to `element_info`. -/
theorem node_dispatch_leaf (ty : String) (kd vd : List String) (sib : List Node)
    (l : Nat) (v : Bool) :
    node_dispatch (Node.leaf ty kd vd) sib l v =
      element_info (Node.leaf ty kd vd) sib l v := by
  rw [node_dispatch.eq_def]
  simp [Node.hasChildren, Node.hasMain, Node.deepIndexableOrFalse, Node.deepIndexable?]

/-- Unfolding lemma: `node_dispatch` sends a foreign node (defaulted
`_deep_indexable`) to `element_info`. -/
theorem node_dispatch_foreign (ty : String) (kd vd : List String) (sib : List Node)
    (l : Nat) (v : Bool) :
    node_dispatch (Node.foreign ty kd vd) sib l v =
      element_info (Node.foreign ty kd vd) sib l v := by
  rw [node_dispatch.eq_def]
  simp [Node.hasChildren, Node.hasMain, Node.deepIndexableOrFalse, Node.deepIndexable?]

/-- Unfolding lemma: with no attribute path, `node_info` is the bare
dispatch. -/
theorem node_info_no_attrpath (node : Node) (aps : List String) (sib : List Node)
    (l : Nat) (v : Bool) :
    node_info node none aps sib l v = node_dispatch node sib l v := by
  rw [node_info.eq_def]
  cases h : node_dispatch node sib l v with
  | none => rfl
  | some r => cases r; rfl

/-- Unfolding lemma: `recurse` on a mapping node (no `children` attribute)
returns the `node_info` lines unchanged. -/
theorem recurseChildren_nil (aps : List String) (sib : List Node) (l : Nat)
    (v : Bool) : recurseChildren [] aps sib l v = some [] := by
  rw [recurseChildren.eq_def]

theorem recurse_ndmapping (ty : String) (kd : List String) (ds : List Node)
    (ap : Option String) (aps : List String) (sib : List Node) (l : Nat) (v : Bool) :
    recurse (Node.ndmapping ty kd ds) ap aps sib l v =
      (node_info (Node.ndmapping ty kd ds) ap aps sib l v).map Prod.snd := by
  rw [recurse.eq_def]
  cases h : node_info (Node.ndmapping ty kd ds) ap aps sib l v with
  | none => rfl
  | some r =>
    cases r with
    | mk lvl lines => simp [Node.childrenOf, recurseChildren_nil]

/-- Unfolding lemma: `pprint` of a mapping node is the serialized
`ndmapping_info` output. -/
theorem pprint_ndmapping (ty : String) (kd : List String) (ds : List Node) :
    pprint (Node.ndmapping ty kd ds) =
      (ndmapping_info (Node.ndmapping ty kd ds) [] 0 true).map
        (fun r => serialize r.2) := by
  rw [pprint, recurse_ndmapping, node_info_no_attrpath, node_dispatch_ndmapping]
  cases h : ndmapping_info (Node.ndmapping ty kd ds) [] 0 true with
  | none => rfl
  | some r => rfl

/-- Closed form of the single line `element_info` produces for a leaf. -/
def leafLine (ty : String) (kd vd : List String) (value_dims : Bool) : String :=
  ":" ++ ty
  ++ (if 1 ≤ kd.length then tab ++ "[" ++ String.intercalate "," kd ++ "]" else "")
  ++ (if value_dims ∧ 1 ≤ vd.length then
        tab ++ "(" ++ String.intercalate "," vd ++ ")"
      else "")

/-- Unfolding lemma: `element_info` on a leaf always succeeds with the single
closed-form line, whatever the siblings. -/
theorem element_info_leaf (ty : String) (kd vd : List String) (sib : List Node)
    (l : Nat) (v : Bool) :
    element_info (Node.leaf ty kd vd) sib l v = some (l, [(l, leafLine ty kd vd v)]) := by
  cases v <;>
    by_cases hk : 1 ≤ kd.length <;>
      by_cases hv : 1 ≤ vd.length <;>
        simp [element_info, Node.kdims?, Node.vdims?, component_type, Node.tyname?,
          leafLine, hk, hv, String.append_assoc]

/-- Unfolding lemma: `element_info` also succeeds on a foreign node — the
dimension accessors exist there — producing the same closed-form line. -/
theorem element_info_foreign (ty : String) (kd vd : List String) (sib : List Node)
    (l : Nat) (v : Bool) :
    element_info (Node.foreign ty kd vd) sib l v =
      some (l, [(l, leafLine ty kd vd v)]) := by
  cases v <;>
    by_cases hk : 1 ≤ kd.length <;>
      by_cases hv : 1 ≤ vd.length <;>
        simp [element_info, Node.kdims?, Node.vdims?, component_type, Node.tyname?,
          leafLine, hk, hv, String.append_assoc]

/-- Unfolding lemma: `element_info` on Python `None` models the AttributeError
raised by `None.kdims`. -/
theorem element_info_pynone (sib : List Node) (l : Nat) (v : Bool) :
    element_info Node.pynone sib l v = none := rfl

/-- Unfolding lemma: a non-empty mapping whose last entry is `None` fails —
`None` falls through to `element_info`, which raises on `None.kdims`. -/
theorem ndmapping_info_last_pynone (ty : String) (kd : List String)
    (ds sib : List Node) (l : Nat) (v : Bool) (h : ds.getLast? = some Node.pynone) :
    ndmapping_info (Node.ndmapping ty kd ds) sib l v = none := by
  rw [ndmapping_info.eq_def]
  simp only [Node.kdims?, Node.data?]
  split
  · simp_all
  · rename_i last heq
    rw [h] at heq
    injection heq with heq2
    subst heq2
    simp [Node.hasChildren, Node.isPyNone, element_info_pynone]

/-- Unfolding lemma: a non-empty mapping whose last entry defines no
`_deep_indexable` attribute fails at the unguarded `getattr`. -/
theorem ndmapping_info_last_foreign (ty fty : String) (kd fkd fvd : List String)
    (ds sib : List Node) (l : Nat) (v : Bool)
    (h : ds.getLast? = some (Node.foreign fty fkd fvd)) :
    ndmapping_info (Node.ndmapping ty kd ds) sib l v = none := by
  rw [ndmapping_info.eq_def]
  simp only [Node.kdims?, Node.data?]
  split
  · simp_all
  · rename_i last heq
    rw [h] at heq
    injection heq with heq2
    subst heq2
    simp [Node.hasChildren, Node.isPyNone, Node.deepIndexable?]

/-- Unfolding lemma: a non-empty mapping whose last entry is a leaf renders
its header and the leaf's line shifted one level deeper. -/
theorem ndmapping_info_last_leaf (ty lty : String) (kd lkd lvd : List String)
    (ds sib : List Node) (l : Nat) (v : Bool)
    (h : ds.getLast? = some (Node.leaf lty lkd lvd)) :
    ndmapping_info (Node.ndmapping ty kd ds) sib l v =
      some (l, [(l, mappingHeader ty kd), (l + 1, leafLine lty lkd lvd v)]) := by
  rw [ndmapping_info.eq_def]
  simp only [Node.kdims?, Node.data?]
  split
  · simp_all
  · rename_i last heq
    rw [h] at heq
    injection heq with heq2
    subst heq2
    simp [Node.hasChildren, Node.isPyNone, Node.deepIndexable?, element_info_leaf,
      shift, mappingHeader, component_type, Node.tyname?, String.append_assoc]

/-- Unfolding lemma: a non-empty mapping whose last entry is itself a mapping
recurses into `ndmapping_info` at the same level and then shifts the nested
block one level deeper. -/
theorem ndmapping_info_last_ndmapping (ty nty : String) (kd nkd : List String)
    (ds nds : List Node) (sib : List Node) (l : Nat) (v : Bool)
    (h : ds.getLast? = some (Node.ndmapping nty nkd nds)) :
    ndmapping_info (Node.ndmapping ty kd ds) sib l v =
      match ndmapping_info (Node.ndmapping nty nkd nds) [] l v with
      | none => none
      | some r => some (r.1, (l, mappingHeader ty kd) :: shift r.2 1) := by
  rw [ndmapping_info.eq_def]
  simp only [Node.kdims?, Node.data?]
  split
  · simp_all
  · rename_i last heq
    rw [h] at heq
    injection heq with heq2
    subst heq2
    simp [Node.hasChildren, Node.isPyNone, Node.deepIndexable?, mappingHeader,
      component_type, Node.tyname?, String.append_assoc]

/-- Unfolding lemma: an empty mapping yields exactly its header line. -/
theorem ndmapping_info_empty (ty : String) (kd : List String) (sib : List Node)
    (l : Nat) (v : Bool) :
    ndmapping_info (Node.ndmapping ty kd []) sib l v =
      some (l, [(l, mappingHeader ty kd)]) := by
  rw [ndmapping_info.eq_def]
  simp [Node.kdims?, Node.data?, component_type, Node.tyname?, mappingHeader,
    String.append_assoc]

/-- Combined unfolding: a chain of three nested mappings (outer mapping whose
last entry is a middle mapping whose last entry is a leaf) renders the outer
header at the given level, the middle header one level deeper, and the leaf
line two levels deeper. -/
theorem ndmapping_chain (t1 t2 t3 : String) (k1 k2 kd vd : List String)
    (d1 d2 sib : List Node) (l : Nat) (v : Bool)
    (h1 : d1.getLast? = some (Node.ndmapping t2 k2 d2))
    (h2 : d2.getLast? = some (Node.leaf t3 kd vd)) :
    ndmapping_info (Node.ndmapping t1 k1 d1) sib l v =
      some (l, [(l, mappingHeader t1 k1), (l + 1, mappingHeader t2 k2),
                (l + 2, leafLine t3 kd vd v)]) := by
  have hmid := ndmapping_info_last_leaf t2 t3 k2 kd vd d2 [] l v h2
  rw [ndmapping_info_last_ndmapping t1 t2 k1 k2 d1 d2 sib l v h1, hmid]
  simp [shift]

end PrettyPrinter

namespace ParamFilter

/-- The anchored matcher succeeds exactly when the pattern heads the
subject. -/
theorem startsWithChars_iff (p s : List Char) :
    startsWithChars p s = true ↔ ∃ t, s = p ++ t := by
  induction p generalizing s with
  | nil => simp [startsWithChars]
  | cons a ps ih =>
    cases s with
    | nil => simp [startsWithChars]
    | cons b t =>
      by_cases hab : a = b
      · subst hab
        simp [startsWithChars, ih]
      · simp [startsWithChars, hab]
        intro hba
        exact fun x ht => absurd hba.symm hab

/-- The scanning search succeeds exactly when the pattern occurs contiguously
somewhere in the subject: the case-sensitive substring characterization. -/
theorem searchChars_iff (p s : List Char) :
    searchChars p s = true ↔ ∃ a b, s = a ++ p ++ b := by
  induction s with
  | nil =>
    simp only [searchChars, startsWithChars_iff]
    constructor
    · rintro ⟨t, ht⟩
      exact ⟨[], t, by simp [ht]⟩
    · rintro ⟨a, b, hab⟩
      have hp : p = [] := by
        have hlen := congrArg List.length hab
        simp at hlen
        exact List.eq_nil_of_length_eq_zero (by omega)
      exact ⟨[], by simp [hp]⟩
  | cons c cs ih =>
    simp only [searchChars, Bool.or_eq_true, startsWithChars_iff, ih]
    constructor
    · rintro (⟨t, ht⟩ | ⟨a, b, hab⟩)
      · exact ⟨[], t, by simp [ht]⟩
      · exact ⟨c :: a, b, by simp [hab]⟩
    · rintro ⟨a, b, hab⟩
      cases a with
      | nil =>
        left
        exact ⟨b, by simpa using hab⟩
      | cons x xs =>
        right
        simp at hab
        exact ⟨xs, b, by rw [List.append_assoc]; exact hab.2⟩

end ParamFilter

open PrettyPrinter

/-- Claim C1 (counterexample): for the concrete chain of three nested
non-empty mappings HoloMap ▸ NdOverlay ▸ leaf Curve, the levels emitted by
`recurse` are 0, 1, 2 — the middle mapping's header is one level deeper than
the outer header and the leaf line two levels deeper — whereas the claim
requires levels 0, 0, 1 (middle merged at the outer level, leaf exactly one
level deeper). -/
theorem C1_counterexample :
    (recurse (Node.ndmapping "HoloMap" ["A"]
          [Node.ndmapping "NdOverlay" ["B"] [Node.leaf "Curve" ["x"] ["y"]]])
        none [] [] 0 true).map (fun ls => ls.map Prod.fst) = some [0, 1, 2] ∧
    (some [0, 1, 2] : Option (List Nat)) ≠ some [0, 0, 1] := by
  constructor
  · have hch := ndmapping_chain "HoloMap" "NdOverlay" "Curve" ["A"] ["B"] ["x"] ["y"]
      [Node.ndmapping "NdOverlay" ["B"] [Node.leaf "Curve" ["x"] ["y"]]]
      [Node.leaf "Curve" ["x"] ["y"]] [] 0 true (by simp) (by simp)
    rw [recurse_ndmapping, node_info_no_attrpath, node_dispatch_ndmapping, hch]
    rfl
  · decide

/-- Claim C1 (amended): for every chain of three nested non-empty
IndexableMappings — outer mapping whose last entry is a middle mapping whose
last entry is a leaf — the output places the middle mapping's header exactly
one level deeper than the outer header and the leaf's line exactly two levels
deeper (one below the middle header): each nested mapping recursion adds one
indentation level. -/
theorem C1_amended_nested_chain_levels (t1 t2 t3 : String)
    (k1 k2 kd vd : List String) (d1 d2 sib : List Node) (l : Nat) (v : Bool)
    (h1 : d1.getLast? = some (Node.ndmapping t2 k2 d2))
    (h2 : d2.getLast? = some (Node.leaf t3 kd vd)) :
    ndmapping_info (Node.ndmapping t1 k1 d1) sib l v =
      some (l, [(l, mappingHeader t1 k1), (l + 1, mappingHeader t2 k2),
                (l + 2, leafLine t3 kd vd v)]) :=
  ndmapping_chain t1 t2 t3 k1 k2 kd vd d1 d2 sib l v h1 h2

/-- Witness for the amended C1 at a concrete chain. -/
theorem C1_amended_witness :
    ndmapping_info (Node.ndmapping "HoloMap" ["A"]
        [Node.ndmapping "NdOverlay" ["B"] [Node.leaf "Curve" ["x"] ["y"]]])
      [] 0 true =
      some (0, [(0, mappingHeader "HoloMap" ["A"]),
                (1, mappingHeader "NdOverlay" ["B"]),
                (2, leafLine "Curve" ["x"] ["y"] true)]) :=
  C1_amended_nested_chain_levels "HoloMap" "NdOverlay" "Curve" ["A"] ["B"]
    ["x"] ["y"] [Node.ndmapping "NdOverlay" ["B"] [Node.leaf "Curve" ["x"] ["y"]]]
    [Node.leaf "Curve" ["x"] ["y"]] [] 0 true (by simp) (by simp)

/-- Claim C2: when a node is rendered as the child reached through an
attribute path, only the first line of its block is rewritten — prepending a
dot, the path left-justified to the sibling paths' padding width, and one
space — and all continuation lines are untouched. -/
theorem C2_attrpath_decoration (node : Node) (ap : String)
    (attrpaths : List String) (sib : List Node) (level : Nat) (v : Bool)
    (lvl l0 : Nat) (s0 : String) (rest : List (Nat × String)) (pad : Nat)
    (h : node_info node none attrpaths sib level v = some (lvl, (l0, s0) :: rest))
    (hp : padding attrpaths = some pad) :
    node_info node (some ap) attrpaths sib level v =
      some (lvl, (l0, "." ++ ljust ap pad ++ " " ++ s0) :: rest) := by
  rw [node_info_no_attrpath] at h
  rw [node_info.eq_def, h]
  simp [hp]

/-- Witness for C2 at the spec's example: sibling paths a and bb, so the path
a is padded to width 2 before the space and the original first line. -/
theorem C2_witness :
    node_info (Node.leaf "Image" [] []) (some "a") ["a", "bb"] [] 1 true =
      some (1, [(1, "." ++ ljust "a" 2 ++ " " ++ ":Image")]) :=
  C2_attrpath_decoration (Node.leaf "Image" [] []) "a" ["a", "bb"] [] 1 true 1 1
    ":Image" [] 2
    (by rw [node_info_no_attrpath, node_dispatch_leaf, element_info_leaf]
        simp [leafLine])
    (by decide)

/-- Claim C3 (counterexample): a mapping whose last entry is `None` makes
`pprint` fail (AttributeError modelled by `none`), contradicting the claim
that it degenerates to an empty additional-lines list without failing. -/
theorem C3_counterexample :
    pprint (Node.ndmapping "HoloMap" ["A"] [Node.pynone]) = none := by
  rw [pprint_ndmapping,
    ndmapping_info_last_pynone "HoloMap" ["A"] [Node.pynone] [] 0 true (by simp)]
  rfl

/-- Claim C3 (amended): for every IndexableMapping with at least one entry
whose last entry is `None`, the printer FAILS: the `None` falls through to
`element_info`, whose access to `None.kdims` raises AttributeError, so
`ndmapping_info` and `pprint` produce no output instead of degenerating to an
empty additional-lines list. -/
theorem C3_amended_last_none_fails (ty : String) (kd : List String)
    (ds sib : List Node) (l : Nat) (v : Bool)
    (h : ds.getLast? = some Node.pynone) :
    ndmapping_info (Node.ndmapping ty kd ds) sib l v = none ∧
    pprint (Node.ndmapping ty kd ds) = none := by
  refine ⟨ndmapping_info_last_pynone ty kd ds sib l v h, ?_⟩
  rw [pprint_ndmapping, ndmapping_info_last_pynone ty kd ds [] 0 true h]
  rfl

/-- Witness for the amended C3 at a concrete mapping. -/
theorem C3_amended_witness :
    ndmapping_info (Node.ndmapping "HoloMap" ["A"] [Node.pynone]) [] 0 true = none ∧
    pprint (Node.ndmapping "HoloMap" ["A"] [Node.pynone]) = none :=
  C3_amended_last_none_fails "HoloMap" ["A"] [Node.pynone] [] 0 true (by simp)

/-- Claim C5: a leaf element renders as exactly one line — its type tag, then
a tab and the bracketed comma-joined key dimensions only when it has at least
one, then a tab and the parenthesized comma-joined value dimensions only when
value dimensions are requested and it has at least one; when value dimensions
are not requested the parenthesized part is absent entirely. -/
theorem C5_leaf_line_shape (ty : String) (kd vd : List String) (sib : List Node)
    (level : Nat) (value_dims : Bool) :
    element_info (Node.leaf ty kd vd) sib level value_dims =
      some (level, [(level, ":" ++ ty
        ++ (if 1 ≤ kd.length then tab ++ "[" ++ String.intercalate "," kd ++ "]"
            else "")
        ++ (if value_dims ∧ 1 ≤ vd.length then
              tab ++ "(" ++ String.intercalate "," vd ++ ")"
            else ""))]) :=
  element_info_leaf ty kd vd sib level value_dims

/-- Claim C6: an IndexableMapping with zero entries pretty-prints to exactly
one line — its header of type tag, tab, and bracketed comma-joined key
dimensions — with no child lines and no error, for every declared key
dimension list. -/
theorem C6_empty_mapping_header_only (ty : String) (kd : List String) :
    pprint (Node.ndmapping ty kd []) =
      some (":" ++ ty ++ tab ++ "[" ++ String.intercalate "," kd ++ "]") := by
  rw [pprint_ndmapping, ndmapping_info_empty]
  simp [serialize_single0, mappingHeader, String.append_assoc]

/-- Claim C7: on the non-visualization path of `info` (visualization `false`
or no plot class found), a supplied pattern whose filtering leaves at most one
visible parameter makes `info` return the descriptive message naming the
object and the pattern — for every pager, so the external parameter pager is
never consulted. -/
theorem C7_no_params_short_circuit (obj : PObj) (ansi : Bool) (pc : Option Unit)
    (viz : Bool) (pat : String) (pager : PObj → String) (strip : String → String)
    (sub : String → String → String) (viz_report : String)
    (hbranch : viz = false ∨ pc = none)
    (hfew : (ParamFilter.call obj
        (some (ParamFilter.regexp_filter pat))).params.length ≤ 1) :
    InfoPrinter.info obj ansi pc viz (some pat) pager strip sub viz_report =
      "No " ++ InfoPrinter.quote1 ++ obj.name ++ InfoPrinter.quote1 ++
        " parameters found matching pattern " ++ InfoPrinter.quote1 ++ pat ++
        InfoPrinter.quote1 := by
  rw [InfoPrinter.info, if_pos hbranch]
  simp [InfoPrinter.info_noviz, hfew]

/-- Witness for C7: a concrete object with one parameter and a pattern that
matches nothing short-circuits to the message; the pager argument is a dummy
whose output never appears. -/
theorem C7_witness :
    InfoPrinter.info ⟨"Curve", [("name", ⟨"object name", true⟩)], []⟩ false none
        true (some "zzz") (fun _ => "PAGER") id (fun _ s => s) "VIZ" =
      "No " ++ InfoPrinter.quote1 ++ "Curve" ++ InfoPrinter.quote1 ++
        " parameters found matching pattern " ++ InfoPrinter.quote1 ++ "zzz" ++
        InfoPrinter.quote1 :=
  C7_no_params_short_circuit ⟨"Curve", [("name", ⟨"object name", true⟩)], []⟩
    false none true "zzz" (fun _ => "PAGER") id (fun _ s => s) "VIZ"
    (Or.inr rfl) (by decide)

/-- Claim C8: the predicate produced by `regexp_filter pattern` accepts a
(name, descriptor) pair exactly when the pattern occurs verbatim — a
case-sensitive contiguous substring — in the parameter's name or in its
documentation string. -/
theorem C8_regexp_filter_name_or_doc (pattern nm : String) (p : PDescr) :
    ParamFilter.regexp_filter pattern nm p = true ↔
      (∃ a b, nm.toList = a ++ pattern.toList ++ b) ∨
      (∃ a b, p.doc.toList = a ++ pattern.toList ++ b) := by
  have hn := ParamFilter.searchChars_iff pattern.toList nm.toList
  have hd := ParamFilter.searchChars_iff pattern.toList p.doc.toList
  constructor
  · intro h
    by_cases h1 : ParamFilter.re_search pattern nm = true
    · exact Or.inl (hn.mp h1)
    · rw [ParamFilter.regexp_filter] at h
      simp [h1] at h
      exact Or.inr (hd.mp h)
  · intro h
    rcases h with hnm | hdoc
    · have hs := hn.mpr hnm
      simp [ParamFilter.regexp_filter, ParamFilter.re_search, hs]
      exact Or.inl hs
    · have hs := hd.mpr hdoc
      simp [ParamFilter.regexp_filter, ParamFilter.re_search, hs]
      exact Or.inr hs

/-- Claim C9: the line produced by `element_info` for a leaf at a fixed level
and value-dims flag is identical for every siblings argument — the sibling
padding is computed but never applied, so a leaf's rendered text does not
depend on its siblings. -/
theorem C9_element_info_siblings_independent (ty : String) (kd vd : List String)
    (sibA sibB : List Node) (level : Nat) (value_dims : Bool) :
    element_info (Node.leaf ty kd vd) sibA level value_dims =
      element_info (Node.leaf ty kd vd) sibB level value_dims := rfl

/-- Claim C10: a mapping whose last entry is a non-`None` object defining no
`_deep_indexable` attribute makes `ndmapping_info` — and hence `pprint` —
fail at the unguarded `getattr(last, '_deep_indexable')` (modelled `none`),
whereas the top-level dispatch `node_info` defaults the same attribute to
`False` for that very node and renders it through `element_info`
successfully. -/
theorem C10_unguarded_deep_indexable (ty fty : String) (kd fkd fvd : List String)
    (ds sib : List Node) (level : Nat) (v : Bool)
    (h : ds.getLast? = some (Node.foreign fty fkd fvd)) :
    ndmapping_info (Node.ndmapping ty kd ds) sib level v = none ∧
    pprint (Node.ndmapping ty kd ds) = none ∧
    node_info (Node.foreign fty fkd fvd) none [] sib level v =
      element_info (Node.foreign fty fkd fvd) sib level v ∧
    (element_info (Node.foreign fty fkd fvd) sib level v).isSome = true := by
  refine ⟨ndmapping_info_last_foreign ty fty kd fkd fvd ds sib level v h, ?_, ?_, ?_⟩
  · rw [pprint_ndmapping,
      ndmapping_info_last_foreign ty fty kd fkd fvd ds [] 0 true h]
    rfl
  · rw [node_info_no_attrpath, node_dispatch_foreign]
  · rw [element_info_foreign]
    rfl

/-- Witness for C10 at a concrete mapping and foreign object. -/
theorem C10_witness :
    ndmapping_info (Node.ndmapping "HoloMap" ["A"] [Node.foreign "Obj" [] []])
        [] 0 true = none ∧
    pprint (Node.ndmapping "HoloMap" ["A"] [Node.foreign "Obj" [] []]) = none ∧
    node_info (Node.foreign "Obj" [] []) none [] [] 0 true =
      element_info (Node.foreign "Obj" [] []) [] 0 true ∧
    (element_info (Node.foreign "Obj" [] []) [] 0 true).isSome = true :=
  C10_unguarded_deep_indexable "HoloMap" "Obj" ["A"] [] []
    [Node.foreign "Obj" [] []] [] 0 true (by simp)

/-- Claim C4 (counterexample): the pattern BOUNDS occurs case-insensitively in
the doc string of the parameter alpha, yet the filter used by the
parameter-report path rejects the pair and the filtering proxy retains no
parameter at all: filtering is not case-insensitive. -/
theorem C4_counterexample :
    ParamFilter.re_search_ci "BOUNDS" "controls bounds" = true ∧
    ParamFilter.regexp_filter "BOUNDS" "alpha" ⟨"controls bounds", false⟩ = false ∧
    (ParamFilter.call ⟨"Style", [("alpha", ⟨"controls bounds", false⟩)], []⟩
        (some (ParamFilter.regexp_filter "BOUNDS"))).params = [] :=
  ⟨by decide, by decide, by decide⟩

/-- Claim C4 (amended): the filtering that decides which parameters appear is
case-SENSITIVE: a declared parameter is retained by the filtering proxy
exactly when the pattern occurs verbatim in its name or its documentation
string, so an occurrence differing in letter case does not retain it (only
the separate highlighting step is case-insensitive). -/
theorem C4_amended_filter_case_sensitive (pattern nm : String) (d : PDescr)
    (obj : PObj) (hmem : (nm, d) ∈ obj.params) :
    ((nm, d) ∈ (ParamFilter.call obj
        (some (ParamFilter.regexp_filter pattern))).params ↔
      (ParamFilter.re_search pattern nm = true ∨
       ParamFilter.re_search pattern d.doc = true)) := by
  rw [ParamFilter.call]
  simp only [List.mem_filter, hmem, true_and]
  rw [ParamFilter.regexp_filter]
  by_cases h1 : ParamFilter.re_search pattern nm = true <;>
    by_cases h2 : ParamFilter.re_search pattern d.doc = true <;>
      simp [h1, h2]

/-- Witness for the amended C4: the parameter alpha with doc mentioning
bounds is retained for the verbatim pattern bounds. -/
theorem C4_amended_witness :
    (("alpha", (⟨"controls bounds", false⟩ : PDescr)) ∈
        (ParamFilter.call ⟨"Style", [("alpha", ⟨"controls bounds", false⟩)], []⟩
          (some (ParamFilter.regexp_filter "bounds"))).params ↔
      (ParamFilter.re_search "bounds" "alpha" = true ∨
       ParamFilter.re_search "bounds" "controls bounds" = true)) :=
  C4_amended_filter_case_sensitive "bounds" "alpha" ⟨"controls bounds", false⟩
    ⟨"Style", [("alpha", ⟨"controls bounds", false⟩)], []⟩ (by simp)

end HoloViews
